import Mathlib

/-!
Verification of the RC beam capacity calculator (`src/app.py`).

The source is a single Python file: a τc interpolation table (`tc_table`,
`pt_range`, `tc_max`, `get_tc`), a self-weight helper
(`self_weight_kN_per_m`) and the main `calculate` function.  All numeric
work is embedded over `ℚ`; `math.pi` is embedded as the exact rational
value of the IEEE-754 double that Python uses.  The concrete grade is the
five-valued enum the code's table (and the UI selectbox) admits; the cases
carry the numeric grade via `Fck.val`.
-/

/-- Concrete grade: the five keys of `tc_table` (and of the UI selectbox). -/
inductive Fck where
  | M20 | M25 | M30 | M35 | M40
deriving DecidableEq

/-- Numeric value (MPa) of a concrete grade, as used in the formulas. -/
def Fck.val : Fck → ℚ
  | .M20 => 20
  | .M25 => 25
  | .M30 => 30
  | .M35 => 35
  | .M40 => 40

/-- One row of `tc_table`: the five τc values at pt = 0.15, 0.25, 0.50, 0.75, 1.0. -/
structure Row where
  v0 : ℚ
  v1 : ℚ
  v2 : ℚ
  v3 : ℚ
  v4 : ℚ

/-- `tc_table` from the source: IS 456 τc values per grade. -/
def tc_table : Fck → Row
  | .M20 => ⟨28/100, 32/100, 36/100, 40/100, 45/100⟩
  | .M25 => ⟨29/100, 33/100, 37/100, 41/100, 46/100⟩
  | .M30 => ⟨30/100, 34/100, 38/100, 42/100, 47/100⟩
  | .M35 => ⟨31/100, 35/100, 39/100, 43/100, 48/100⟩
  | .M40 => ⟨32/100, 36/100, 40/100, 44/100, 49/100⟩

/-- `tc_max` from the source: code ceiling shear stress per grade. -/
def tc_max : Fck → ℚ
  | .M20 => 28/10
  | .M25 => 31/10
  | .M30 => 35/10
  | .M35 => 37/10
  | .M40 => 40/10

/-- `np.interp(x, pt_range, arr)` specialised to the source's fixed
breakpoints `pt_range = [0.15, 0.25, 0.50, 0.75, 1.0]`: below the first
breakpoint the first value, above the last the last value, linear
interpolation in between (at a breakpoint the two adjacent formulas agree,
so the tie-break is immaterial). -/
def np_interp (x : ℚ) (r : Row) : ℚ :=
  if x ≤ 15/100 then r.v0
  else if x ≤ 25/100 then r.v0 + (r.v1 - r.v0) * (x - 15/100) / (25/100 - 15/100)
  else if x ≤ 50/100 then r.v1 + (r.v2 - r.v1) * (x - 25/100) / (50/100 - 25/100)
  else if x ≤ 75/100 then r.v2 + (r.v3 - r.v2) * (x - 50/100) / (75/100 - 50/100)
  else if x ≤ 1 then r.v3 + (r.v4 - r.v3) * (x - 75/100) / (1 - 75/100)
  else r.v4

/-- `get_tc(pt, fck)` from the source: clamp `pt` to `[0.15, 1.0]`
(`pt = max(pt, 0.15)`; `pt = min(pt, 1.0)`), then interpolate the grade's
table row. -/
def get_tc (pt : ℚ) (fck : Fck) : ℚ :=
  np_interp (min (max pt (15/100)) 1) (tc_table fck)

/-- `self_weight_kN_per_m(b, D)` from the source: `25 * (b/1000) * (D/1000)`. -/
def self_weight_kN_per_m (b D : ℚ) : ℚ :=
  25 * (b/1000) * (D/1000)

/-- The exact rational value of the IEEE-754 double `math.pi`
(3.141592653589793…, i.e. 884279719003555 / 2^48). -/
def mathPi : ℚ := 884279719003555 / 281474976710656

/-- The arguments of `calculate`, bundled. -/
structure Inputs where
  fck : Fck
  fy : ℚ
  b : ℚ
  D : ℚ
  L : ℚ
  load_type : String
  main_dia : ℚ
  main_count : ℕ
  stirrup_dia : ℚ
  spacing : ℚ

/-- `d = D - cover - stirrup_dia - main_dia/2` with `cover = 25`. -/
def d (i : Inputs) : ℚ := i.D - 25 - i.stirrup_dia - i.main_dia / 2

/-- `Ast = (math.pi/4)*(main_dia**2)*main_count`. -/
def Ast (i : Inputs) : ℚ := (mathPi/4) * i.main_dia^2 * i.main_count

/-- `Asv = (math.pi/4)*(stirrup_dia**2)*2`. -/
def Asv (i : Inputs) : ℚ := (mathPi/4) * i.stirrup_dia^2 * 2

/-- `xu = (0.87*fy*Ast)/(0.36*fck*b)` then `xu = min(xu, 0.48*d)`. -/
def xu (i : Inputs) : ℚ :=
  min ((87/100) * i.fy * Ast i / ((36/100) * i.fck.val * i.b)) ((48/100) * d i)

/-- `Mu = 0.36*fck*b*xu*(d - 0.42*xu)` then `Mu = min(Mu, 0.138*fck*b*d*d)` (N·mm). -/
def Mu (i : Inputs) : ℚ :=
  min ((36/100) * i.fck.val * i.b * xu i * (d i - (42/100) * xu i))
      ((138/1000) * i.fck.val * i.b * d i * d i)

/-- `eff_span = min(L + d, L)`. -/
def eff_span (i : Inputs) : ℚ := min (i.L + d i) i.L

/-- `W_flex = 4*Mu/eff_span` for `"Point Load"`, else `6*Mu/eff_span`. -/
def W_flex (i : Inputs) : ℚ :=
  if i.load_type = "Point Load" then 4 * Mu i / eff_span i
  else 6 * Mu i / eff_span i

/-- `pt = 100*Ast/(b*d)`. -/
def pt (i : Inputs) : ℚ := 100 * Ast i / (i.b * d i)

/-- `tc = get_tc(pt, fck)`. -/
def tc (i : Inputs) : ℚ := get_tc (pt i) i.fck

/-- `V = W_flex/2`. -/
def V (i : Inputs) : ℚ := W_flex i / 2

/-- `tau_v = V/(b*d)`. -/
def tau_v (i : Inputs) : ℚ := V i / (i.b * d i)

/-- `Vc = tc * b * d`. -/
def Vc (i : Inputs) : ℚ := tc i * i.b * d i

/-- `Vs = 0.87*fy*Asv*d/spacing`. -/
def Vs (i : Inputs) : ℚ := (87/100) * i.fy * Asv i * d i / i.spacing

/-- `Vu = Vc + Vs`. -/
def Vu (i : Inputs) : ℚ := Vc i + Vs i

/-- `W_shear = 2*Vu`. -/
def W_shear (i : Inputs) : ℚ := 2 * Vu i

/-- `Wu = min(W_flex, W_shear)`. -/
def Wu (i : Inputs) : ℚ := min (W_flex i) (W_shear i)

/-- `sw = self_weight_kN_per_m(b, D) * (L/1000)` (kN). -/
def sw (i : Inputs) : ℚ := self_weight_kN_per_m i.b i.D * (i.L / 1000)

/-- `Wu_net = Wu/1000 - sw` (N → kN, then subtract self-weight). -/
def Wu_net (i : Inputs) : ℚ := Wu i / 1000 - sw i

/-- The failure-mode string: `"Flexural"` if `W_flex < 0.9*W_shear`,
else `"Shear"` if `W_shear < 0.9*W_flex`, else `"Combined"`. -/
def mode (i : Inputs) : String :=
  if W_flex i < (9/10) * W_shear i then "Flexural"
  else if W_shear i < (9/10) * W_flex i then "Shear"
  else "Combined"

/-- The warning list: the τv flag then the self-weight flag, each appended
when its condition holds. -/
def warnings (i : Inputs) : List String :=
  (if tau_v i > tc_max i.fck then ["τv exceeds τc,max → unsafe section."] else [])
    ++ (if Wu_net i ≤ 0 then ["Beam fails under self weight!"] else [])

/-- The result record returned by `calculate` (the keys of the Python dict). -/
structure CapacityResult where
  Wu_kN_gross : ℚ
  Wu_kN_net : ℚ
  Mu_kNm : ℚ
  Vu_kN : ℚ
  d_mm : ℚ
  pt_percent : ℚ
  tau_v : ℚ
  tau_c : ℚ
  tau_c_max : ℚ
  mode : String
  warnings : List String
deriving DecidableEq

/-- The dict literal at the end of `calculate`. -/
def result (i : Inputs) : CapacityResult where
  Wu_kN_gross := Wu i / 1000
  Wu_kN_net := Wu_net i
  Mu_kNm := Mu i / 1000000
  Vu_kN := Vu i / 1000
  d_mm := d i
  pt_percent := pt i
  tau_v := tau_v i
  tau_c := tc i
  tau_c_max := tc_max i.fck
  mode := mode i
  warnings := warnings i

/-- `calculate(...)` from the source: `(None, "Invalid depth")` when
`d <= 0`, otherwise `(result_dict, None)`; embedded as an `Except`. -/
def calculate (i : Inputs) : Except String CapacityResult :=
  if d i ≤ 0 then Except.error "Invalid depth"
  else Except.ok (result i)

/-- Caller-validated input ranges (the UI bounds every numeric field below
by a positive minimum and requires at least one main bar); only positivity
is needed here. -/
def Valid (i : Inputs) : Prop :=
  0 < i.fy ∧ 0 < i.b ∧ 0 < i.D ∧ 0 < i.L ∧ 0 < i.main_dia ∧
    1 ≤ i.main_count ∧ 0 < i.stirrup_dia ∧ 0 < i.spacing

instance (i : Inputs) : Decidable (Valid i) := by
  unfold Valid; infer_instance

/-- The canonical regression fixture of the spec. -/
def fixture : Inputs where
  fck := .M25
  fy := 415
  b := 230
  D := 450
  L := 4000
  load_type := "Point Load"
  main_dia := 16
  main_count := 2
  stirrup_dia := 8
  spacing := 150

/-- The table rows are non-decreasing left to right. -/
def Row.Mono (r : Row) : Prop :=
  r.v0 ≤ r.v1 ∧ r.v1 ≤ r.v2 ∧ r.v2 ≤ r.v3 ∧ r.v3 ≤ r.v4

lemma tc_table_mono (f : Fck) : (tc_table f).Mono := by
  cases f <;> exact ⟨by norm_num [tc_table], by norm_num [tc_table],
    by norm_num [tc_table], by norm_num [tc_table]⟩

set_option maxHeartbeats 2000000 in
lemma np_interp_mono (r : Row) (hr : r.Mono) {x y : ℚ} (hxy : x ≤ y) :
    np_interp x r ≤ np_interp y r := by
  obtain ⟨a0, a1, a2, a3, a4⟩ := r
  obtain ⟨h01, h12, h23, h34⟩ := hr
  unfold np_interp
  dsimp only at h01 h12 h23 h34 ⊢
  split_ifs <;> first | linarith | (ring_nf; nlinarith)

set_option maxHeartbeats 1000000 in
lemma np_interp_ge_v0 (r : Row) (hr : r.Mono) (x : ℚ) : r.v0 ≤ np_interp x r := by
  obtain ⟨a0, a1, a2, a3, a4⟩ := r
  obtain ⟨h01, h12, h23, h34⟩ := hr
  unfold np_interp
  dsimp only at h01 h12 h23 h34 ⊢
  split_ifs <;> first | linarith | (ring_nf; nlinarith)

set_option maxHeartbeats 1000000 in
lemma np_interp_le_v4 (r : Row) (hr : r.Mono) (x : ℚ) : np_interp x r ≤ r.v4 := by
  obtain ⟨a0, a1, a2, a3, a4⟩ := r
  obtain ⟨h01, h12, h23, h34⟩ := hr
  unfold np_interp
  dsimp only at h01 h12 h23 h34 ⊢
  split_ifs <;> first | linarith | (ring_nf; nlinarith)

lemma get_tc_at_low (f : Fck) : get_tc (15/100) f = (tc_table f).v0 := by
  unfold get_tc np_interp
  norm_num

lemma get_tc_at_high (f : Fck) : get_tc 1 f = (tc_table f).v4 := by
  unfold get_tc np_interp
  norm_num

lemma Fck.val_pos (f : Fck) : 0 < f.val := by
  cases f <;> norm_num [Fck.val]

lemma calculate_err {i : Inputs} (h : d i ≤ 0) :
    calculate i = Except.error "Invalid depth" := by
  unfold calculate
  rw [if_pos h]

lemma calculate_ok {i : Inputs} (h : 0 < d i) :
    calculate i = Except.ok (result i) := by
  unfold calculate
  rw [if_neg (not_le.mpr h)]

lemma Ast_nonneg (i : Inputs) : 0 ≤ Ast i := by
  unfold Ast mathPi
  positivity

lemma Asv_nonneg (i : Inputs) : 0 ≤ Asv i := by
  unfold Asv mathPi
  positivity

lemma xu_le_clamp (i : Inputs) : xu i ≤ (48/100) * d i :=
  min_le_right _ _

lemma xu_nonneg (i : Inputs) (hb : 0 < i.b) (hfy : 0 < i.fy) (hd : 0 < d i) :
    0 ≤ xu i := by
  have h1 : 0 ≤ (87/100) * i.fy * Ast i / ((36/100) * i.fck.val * i.b) := by
    have := Ast_nonneg i
    have := Fck.val_pos i.fck
    positivity
  have h2 : (0:ℚ) ≤ (48/100) * d i := by positivity
  exact le_min h1 h2

lemma Mu_nonneg (i : Inputs) (hb : 0 < i.b) (hfy : 0 < i.fy) (hd : 0 < d i) :
    0 ≤ Mu i := by
  have hxu := xu_nonneg i hb hfy hd
  have hcl := xu_le_clamp i
  have hfck := Fck.val_pos i.fck
  have h1 : 0 ≤ (36/100) * i.fck.val * i.b * xu i * (d i - (42/100) * xu i) := by
    have harm : 0 ≤ d i - (42/100) * xu i := by nlinarith
    positivity
  have h2 : 0 ≤ (138/1000) * i.fck.val * i.b * d i * d i := by positivity
  exact le_min h1 h2

lemma eff_span_eq_L (i : Inputs) (hd : 0 < d i) : eff_span i = i.L := by
  unfold eff_span
  exact min_eq_right (by linarith)

lemma W_flex_nonneg (i : Inputs) (hb : 0 < i.b) (hfy : 0 < i.fy)
    (hL : 0 < i.L) (hd : 0 < d i) : 0 ≤ W_flex i := by
  have hMu := Mu_nonneg i hb hfy hd
  unfold W_flex
  rw [eff_span_eq_L i hd]
  split_ifs <;> positivity

/-- C1: `calculate` derives `d = D − 25 − stirrupDia − mainDia/2`; when
`d ≤ 0` it returns only the `InvalidDepth` domain error (no result record),
and when `d > 0` it returns the full result record. -/
theorem calculate_effective_depth_gate (i : Inputs) :
    d i = i.D - 25 - i.stirrup_dia - i.main_dia / 2 ∧
    (d i ≤ 0 → calculate i = Except.error "Invalid depth") ∧
    (0 < d i → calculate i = Except.ok (result i)) :=
  ⟨rfl, fun h => calculate_err h, fun h => calculate_ok h⟩

theorem calculate_effective_depth_gate_witness :
    calculate { fixture with D := 30 } = Except.error "Invalid depth" ∧
    calculate fixture = Except.ok (result fixture) :=
  ⟨(calculate_effective_depth_gate { fixture with D := 30 }).2.1 (by norm_num [d, fixture]),
   (calculate_effective_depth_gate fixture).2.2 (by norm_num [d, fixture])⟩

/-- C2 counterexample: on the canonical regression fixture `calculate`
succeeds but the reported effective depth is not 392 mm. -/
theorem fixture_d_not_392 :
    calculate fixture = Except.ok (result fixture) ∧
    (result fixture).d_mm ≠ 392 :=
  ⟨calculate_ok (by norm_num [d, fixture]), by norm_num [result, d, fixture]⟩

/-- C2 (amended): on the canonical regression fixture `calculate` returns
effective depth `d = 409` mm (= 450 − 25 − 8 − 16/2). -/
theorem fixture_d_eq_409 :
    calculate fixture = Except.ok (result fixture) ∧
    (result fixture).d_mm = 409 :=
  ⟨calculate_ok (by norm_num [d, fixture]), by norm_num [result, d, fixture]⟩

/-- C3: on success the clamped neutral-axis depth never exceeds `0.48·d`
and the flexural capacity never exceeds the limiting moment
`0.138·fck·b·d²` (the result reports `Mu` in kN·m). -/
theorem xu_Mu_capped (i : Inputs) (hd : 0 < d i) :
    calculate i = Except.ok (result i) ∧
    xu i ≤ (48/100) * d i ∧
    Mu i ≤ (138/1000) * i.fck.val * i.b * d i * d i ∧
    (result i).Mu_kNm = Mu i / 1000000 :=
  ⟨calculate_ok hd, xu_le_clamp i, min_le_right _ _, rfl⟩

theorem xu_Mu_capped_witness :
    calculate fixture = Except.ok (result fixture) ∧
    xu fixture ≤ (48/100) * d fixture ∧
    Mu fixture ≤ (138/1000) * (Inputs.fck fixture).val * fixture.b * d fixture * d fixture ∧
    (result fixture).Mu_kNm = Mu fixture / 1000000 :=
  xu_Mu_capped fixture (by norm_num [d, fixture])

/-- C4: on success the reported gross ultimate load is
`min(W_flex, W_shear)` (converted to kN) and the shear-limited load is
`W_shear = 2·Vu`. -/
theorem Wu_governing (i : Inputs) (hd : 0 < d i) :
    calculate i = Except.ok (result i) ∧
    (result i).Wu_kN_gross = min (W_flex i) (W_shear i) / 1000 ∧
    W_shear i = 2 * Vu i :=
  ⟨calculate_ok hd, rfl, rfl⟩

theorem Wu_governing_witness :
    calculate fixture = Except.ok (result fixture) ∧
    (result fixture).Wu_kN_gross = min (W_flex fixture) (W_shear fixture) / 1000 ∧
    W_shear fixture = 2 * Vu fixture :=
  Wu_governing fixture (by norm_num [d, fixture])

/-- C5: on success (for caller-validated inputs) the failure mode is
`"Flexural"` iff `W_flex < 0.9·W_shear`, `"Shear"` iff
`W_shear < 0.9·W_flex`, `"Combined"` iff neither, and the mode is always
one of the three. -/
theorem mode_classification (i : Inputs) (hv : Valid i) (hd : 0 < d i) :
    calculate i = Except.ok (result i) ∧
    (result i).mode = mode i ∧
    (mode i = "Flexural" ↔ W_flex i < (9/10) * W_shear i) ∧
    (mode i = "Shear" ↔ W_shear i < (9/10) * W_flex i) ∧
    (mode i = "Combined" ↔
      ¬ W_flex i < (9/10) * W_shear i ∧ ¬ W_shear i < (9/10) * W_flex i) ∧
    (mode i = "Flexural" ∨ mode i = "Shear" ∨ mode i = "Combined") := by
  obtain ⟨hfy, hb, hD, hL, hmd, hmc, hsd, hsp⟩ := hv
  have hWf := W_flex_nonneg i hb hfy hL hd
  have hex : ¬ (W_flex i < (9/10) * W_shear i ∧ W_shear i < (9/10) * W_flex i) := by
    rintro ⟨h1, h2⟩
    linarith
  have hFS : ("Flexural" : String) ≠ "Shear" := by simp
  have hFC : ("Flexural" : String) ≠ "Combined" := by simp
  have hSC : ("Shear" : String) ≠ "Combined" := by simp
  refine ⟨calculate_ok hd, rfl, ?_⟩
  unfold mode
  split_ifs with h1 h2
  · exact ⟨⟨fun _ => h1, fun _ => rfl⟩,
      ⟨fun he => absurd he hFS, fun h2 => absurd ⟨h1, h2⟩ hex⟩,
      ⟨fun he => absurd he hFC, fun hn => absurd h1 hn.1⟩,
      Or.inl rfl⟩
  · exact ⟨⟨fun he => absurd he (Ne.symm hFS), fun hlt => absurd hlt h1⟩,
      ⟨fun _ => h2, fun _ => rfl⟩,
      ⟨fun he => absurd he hSC, fun hn => absurd h2 hn.2⟩,
      Or.inr (Or.inl rfl)⟩
  · exact ⟨⟨fun he => absurd he (Ne.symm hFC), fun h => absurd h h1⟩,
      ⟨fun he => absurd he (Ne.symm hSC), fun h => absurd h h2⟩,
      ⟨fun _ => ⟨h1, h2⟩, fun _ => rfl⟩,
      Or.inr (Or.inr rfl)⟩

theorem mode_classification_witness :
    calculate fixture = Except.ok (result fixture) ∧
    (result fixture).mode = mode fixture ∧
    (mode fixture = "Flexural" ↔ W_flex fixture < (9/10) * W_shear fixture) ∧
    (mode fixture = "Shear" ↔ W_shear fixture < (9/10) * W_flex fixture) ∧
    (mode fixture = "Combined" ↔
      ¬ W_flex fixture < (9/10) * W_shear fixture ∧
        ¬ W_shear fixture < (9/10) * W_flex fixture) ∧
    (mode fixture = "Flexural" ∨ mode fixture = "Shear" ∨
      mode fixture = "Combined") :=
  mode_classification fixture (by norm_num [Valid, fixture]) (by norm_num [d, fixture])

/-- C6: for every grade of the table, `get_tc` is monotonically
non-decreasing in `pt`, and every value lies between the looked-up values
at `pt = 0.15` and `pt = 1.0` (flat extrapolation via input clamping). -/
theorem get_tc_mono_and_bounded (f : Fck) (p q : ℚ) :
    (p ≤ q → get_tc p f ≤ get_tc q f) ∧
    get_tc (15/100) f ≤ get_tc p f ∧ get_tc p f ≤ get_tc 1 f := by
  have hr := tc_table_mono f
  refine ⟨fun hpq => ?_, ?_, ?_⟩
  · unfold get_tc
    exact np_interp_mono _ hr (min_le_min (max_le_max hpq le_rfl) le_rfl)
  · rw [get_tc_at_low]
    exact np_interp_ge_v0 _ hr _
  · rw [get_tc_at_high]
    exact np_interp_le_v4 _ hr _

theorem get_tc_mono_and_bounded_witness :
    get_tc (1/2) Fck.M25 ≤ get_tc (3/4) Fck.M25 :=
  (get_tc_mono_and_bounded Fck.M25 (1/2) (3/4)).1 (by norm_num)

/-- C7: on success the warning list contains the τv-exceeds-τc,max string
iff `τv > τc,max` and the self-weight string iff `Wu_net ≤ 0`, while the
full result record is still returned. -/
theorem warnings_iff (i : Inputs) (hd : 0 < d i) :
    calculate i = Except.ok (result i) ∧
    ("τv exceeds τc,max → unsafe section." ∈ (result i).warnings ↔
      tau_v i > tc_max i.fck) ∧
    ("Beam fails under self weight!" ∈ (result i).warnings ↔ Wu_net i ≤ 0) := by
  refine ⟨calculate_ok hd, ?_, ?_⟩ <;>
  · show _ ∈ warnings i ↔ _
    unfold warnings
    split_ifs with h1 h2 <;> simp_all

theorem warnings_iff_witness :
    calculate fixture = Except.ok (result fixture) ∧
    ("τv exceeds τc,max → unsafe section." ∈ (result fixture).warnings ↔
      tau_v fixture > tc_max (Inputs.fck fixture)) ∧
    ("Beam fails under self weight!" ∈ (result fixture).warnings ↔
      Wu_net fixture ≤ 0) :=
  warnings_iff fixture (by norm_num [d, fixture])

/-- C8: on success the reported net capacity is the gross load in kN minus
the self-weight `25·(b/1000)·(D/1000)·(L/1000)`, both gross and net are in
the result, and a non-positive net does not turn the result into an error. -/
theorem Wu_net_reported (i : Inputs) (hd : 0 < d i) :
    calculate i = Except.ok (result i) ∧
    (result i).Wu_kN_net =
      Wu i / 1000 - 25 * (i.b/1000) * (i.D/1000) * (i.L/1000) ∧
    (result i).Wu_kN_gross = Wu i / 1000 ∧
    (Wu_net i ≤ 0 → calculate i = Except.ok (result i)) := by
  refine ⟨calculate_ok hd, ?_, rfl, fun _ => calculate_ok hd⟩
  show Wu_net i = _
  unfold Wu_net sw self_weight_kN_per_m
  ring

theorem Wu_net_reported_witness :
    calculate fixture = Except.ok (result fixture) ∧
    (result fixture).Wu_kN_net =
      Wu fixture / 1000 -
        25 * (fixture.b/1000) * (fixture.D/1000) * (fixture.L/1000) ∧
    (result fixture).Wu_kN_gross = Wu fixture / 1000 ∧
    (Wu_net fixture ≤ 0 → calculate fixture = Except.ok (result fixture)) :=
  Wu_net_reported fixture (by norm_num [d, fixture])

/-- C9: on success the effective span `min(L + d, L)` collapses to `L`, so
the moment-to-load conversion always divides by the raw span `L`. -/
theorem eff_span_is_L (i : Inputs) (hd : 0 < d i) :
    calculate i = Except.ok (result i) ∧
    eff_span i = i.L ∧
    W_flex i =
      (if i.load_type = "Point Load" then 4 * Mu i / i.L else 6 * Mu i / i.L) := by
  refine ⟨calculate_ok hd, eff_span_eq_L i hd, ?_⟩
  unfold W_flex
  rw [eff_span_eq_L i hd]

theorem eff_span_is_L_witness :
    calculate fixture = Except.ok (result fixture) ∧
    eff_span fixture = fixture.L ∧
    W_flex fixture =
      (if fixture.load_type = "Point Load" then 4 * Mu fixture / fixture.L
       else 6 * Mu fixture / fixture.L) :=
  eff_span_is_L fixture (by norm_num [d, fixture])

/-- C10: any load type other than the exact string `"Point Load"` takes the
two-point branch `W_flex = 6·Mu/span` and is not rejected. -/
theorem unknown_load_type_two_point (i : Inputs) (h : i.load_type ≠ "Point Load") :
    W_flex i = 6 * Mu i / eff_span i ∧
    (0 < d i → calculate i = Except.ok (result i)) := by
  refine ⟨?_, fun hd => calculate_ok hd⟩
  unfold W_flex
  rw [if_neg h]

theorem unknown_load_type_two_point_witness :
    W_flex { fixture with load_type := "Uniform" } =
      6 * Mu { fixture with load_type := "Uniform" } /
        eff_span { fixture with load_type := "Uniform" } ∧
    (0 < d { fixture with load_type := "Uniform" } →
      calculate { fixture with load_type := "Uniform" } =
        Except.ok (result { fixture with load_type := "Uniform" })) :=
  unknown_load_type_two_point { fixture with load_type := "Uniform" } (by simp)
